import Mathlib

/-!
Verification of the token-lifecycle logic of the OpenAPI-Proxy repository.

The development shallowly embeds the two `get_token` implementations
(`src/app.py` and the earlier copy in `src/unnamed/part_000`) together with
the 401-recovery mutation of `company_info` in `src/app.py`, and proves the
spec's claims about them.

Modelling conventions:
- Python optional strings are `Option String`; Python truthiness of such a
  value (`None` and `""` are falsy) is the function `truthy`.
- Wall-clock instants and durations are natural numbers (seconds); each call
  of `get_token` receives one `now` value standing for `datetime.now()`.
- The single outbound POST a call may perform is represented by a `Response`
  value: either a transport-level failure (`requests` raising) or an HTTP
  status together with the optional `token` field of the JSON body.
- Exceptions are explicit error values of type `PyError`; `requests`'
  `raise_for_status` raises exactly for statuses in `[400, 600)`.
- In `app.py`, the statement `logger.debug(f"... {TOKEN_CACHE['value'][:6]} ...")`
  evaluates its f-string eagerly even though DEBUG logging is disabled, so a
  `None` token raises a `TypeError` there; the model keeps this behaviour.
-/

namespace OpenAPIProxy

/-- Python truthiness of an optional string: `None` and `""` are falsy. -/
def truthy : Option String → Bool
  | none => false
  | some s => !(s == "")

/-- Rendering of an optional string inside a Python f-string:
`None` prints as the four-character string `"None"`. -/
def pyStr : Option String → String
  | none => "None"
  | some s => s

/-- The credential-related fields of the module-level `CONFIG` dictionary of
`src/app.py` (lines 25-35).  `backoff_factor` is kept as a rational since the
source stores the float `1.5`. -/
structure Config where
  email : Option String
  api_key : Option String
  static_token : Option String
  timeout : Nat
  max_retries : Nat
  backoff_factor : ℚ
  token_refresh : Nat
deriving Repr, DecidableEq

/-- The concrete non-credential values of `CONFIG` in `src/app.py`:
`timeout = 30`, `max_retries = 3`, `backoff_factor = 1.5`,
`token_refresh = timedelta(minutes=55)` - here 3300 seconds. -/
def CONFIG (email api_key static_token : Option String) : Config :=
  { email := email
    api_key := api_key
    static_token := static_token
    timeout := 30
    max_retries := 3
    backoff_factor := 3 / 2
    token_refresh := 55 * 60 }

/-- The module-level `TOKEN_CACHE` dictionary of `src/app.py`. -/
structure Cache where
  value : Option String
  expiry : Option Nat
  refresh_count : Nat
deriving Repr, DecidableEq

/-- The initial `TOKEN_CACHE` at process start:
`{"value": None, "expiry": None, "refresh_count": 0}`. -/
def initCache : Cache := ⟨none, none, 0⟩

/-- What one call of `requests.post` to the token endpoint can produce:
a transport-level exception, or a response carrying an HTTP status and the
optional `token` field of its JSON body. -/
inductive Response where
  | netErr : Response
  | http : Nat → Option String → Response
deriving Repr, DecidableEq

/-- The exceptions the embedded code can raise. -/
inductive PyError where
  | requestError : PyError
  | httpStatusError : Nat → PyError
  | typeError : PyError
  | keyError : PyError
  | genericError : Nat → PyError
deriving Repr, DecidableEq

/-- Result of a `get_token` call: a returned token string or a raised error. -/
inductive PyResult where
  | ok : String → PyResult
  | err : PyError → PyResult
deriving Repr, DecidableEq

/-- The condition under which `raise_for_status` raises: 4xx or 5xx. -/
def raisesForStatus (status : Nat) : Bool :=
  400 ≤ status && status < 600

/-- Output of one call of `app.py`'s `get_token`: the returned value or raised
error, the updated `TOKEN_CACHE`, the number of transport calls issued, and
the Basic-auth user string used when a fetch was issued. -/
structure GetTokenOut where
  result : PyResult
  cache : Cache
  calls : Nat
  creds : Option String
deriving Repr, DecidableEq

/-- The fetch portion of `app.py`'s `get_token` (lines 59-71): build the
credentials string from `CONFIG`, POST to the token endpoint, call
`raise_for_status`, store `response.json().get("token")`, set the expiry,
bump `refresh_count`, then evaluate the debug f-string that slices the new
token (raising `TypeError` when the token field was absent). -/
def fetchToken (cfg : Config) (now : Nat) (resp : Response) (c : Cache) : GetTokenOut :=
  let creds := pyStr cfg.email ++ ":" ++ pyStr cfg.api_key
  match resp with
  | .netErr => ⟨.err .requestError, c, 1, some creds⟩
  | .http status tok =>
    if raisesForStatus status then
      ⟨.err (.httpStatusError status), c, 1, some creds⟩
    else
      let c2 : Cache := ⟨tok, some (now + cfg.token_refresh), c.refresh_count + 1⟩
      match tok with
      | none => ⟨.err .typeError, c2, 1, some creds⟩
      | some s => ⟨.ok s, c2, 1, some creds⟩

/-- The `get_token` function of `src/app.py` (lines 47-78).  The static branch
copies the configured token into the cache when it differs; the dynamic branch
refetches when the cached value is falsy or `now` is past the expiry, and a
truthy value with a `None` expiry raises `TypeError` on the comparison. -/
def get_token (cfg : Config) (now : Nat) (resp : Response) (c : Cache) : GetTokenOut :=
  if truthy cfg.static_token then
    let c2 := if c.value = cfg.static_token then c
      else ⟨cfg.static_token, some (now + cfg.token_refresh), c.refresh_count⟩
    ⟨.ok (pyStr c2.value), c2, 0, none⟩
  else
    if truthy c.value then
      match c.expiry with
      | none => ⟨.err .typeError, c, 0, none⟩
      | some e =>
        if e < now then fetchToken cfg now resp c
        else ⟨.ok (pyStr c.value), c, 0, none⟩
    else fetchToken cfg now resp c

/-- The 401-recovery statement in `company_info` of `src/app.py` (line 197):
`TOKEN_CACHE["value"] = None`.  It runs whatever the mode and leaves the
expiry and the refresh counter untouched. -/
def invalidate (c : Cache) : Cache := { c with value := none }

/-- Output of one call of the `get_token` of `src/unnamed/part_000`. -/
structure CopyOut where
  result : PyResult
  calls : Nat
  creds : Option String
deriving Repr, DecidableEq

/-- The `get_token` function of `src/unnamed/part_000` (lines 20-32): return
the static token when truthy, otherwise POST with Basic auth and return
`response.json()["token"]` on a 200 (a missing field raises `KeyError`),
raising a generic exception on any other status. -/
def get_token_copy (static_token email api_key : Option String)
    (resp : Response) : CopyOut :=
  if truthy static_token then
    ⟨.ok (pyStr static_token), 0, none⟩
  else
    let creds := pyStr email ++ ":" ++ pyStr api_key
    match resp with
    | .netErr => ⟨.err .requestError, 1, some creds⟩
    | .http status tok =>
      if status = 200 then
        match tok with
        | some s => ⟨.ok s, 1, some creds⟩
        | none => ⟨.err .keyError, 1, some creds⟩
      else ⟨.err (.genericError status), 1, some creds⟩

/-- A transport response that counts as a failure for the token fetch:
a transport-level error, or a 4xx/5xx status. -/
def failingResponse (r : Response) : Prop :=
  r = .netErr ∨ ∃ status tok, r = .http status tok ∧ raisesForStatus status = true

instance : DecidablePred failingResponse := by
  intro r
  unfold failingResponse
  cases r with
  | netErr => exact .isTrue (Or.inl rfl)
  | http status tok =>
    by_cases h : raisesForStatus status = true
    · exact .isTrue (Or.inr ⟨status, tok, rfl, h⟩)
    · refine .isFalse ?_
      rintro (hc | ⟨s2, t2, heq, hr⟩)
      · exact Response.noConfusion hc
      · cases heq; exact h hr

/-- The dynamic-mode refetch condition of `app.py`: cached value falsy, or
expiry present and strictly before `now`. -/
def needsFetch (c : Cache) (now : Nat) : Prop :=
  truthy c.value = false ∨ ∃ e, c.expiry = some e ∧ e < now

instance : ∀ c now, Decidable (needsFetch c now) := by
  intro c now
  unfold needsFetch
  infer_instance

/-! ### Helper lemmas -/

/-- When the static token is not truthy and the refetch condition holds, a
`get_token` call reduces to the fetch. -/
theorem get_token_dynamic_fetch (cfg : Config) (now : Nat) (resp : Response) (c : Cache)
    (hstatic : truthy cfg.static_token = false) (hneed : needsFetch c now) :
    get_token cfg now resp c = fetchToken cfg now resp c := by
  unfold get_token
  rw [hstatic]
  simp only [Bool.false_eq_true, if_false]
  rcases hneed with hval | ⟨e, he, hlt⟩
  · rw [hval]
    simp
  · by_cases hv : truthy c.value
    · rw [hv, he]
      simp [hlt]
    · simp [hv]

/-- When the static token is a truthy string, `get_token` returns it with no
transport call, refreshing the cached copy when it differs. -/
theorem get_token_static (cfg : Config) (now : Nat) (resp : Response) (c : Cache) (s : String)
    (hs : cfg.static_token = some s) (hne : s ≠ "") :
    get_token cfg now resp c =
      ⟨.ok s,
       if c.value = some s then c
         else ⟨some s, some (now + cfg.token_refresh), c.refresh_count⟩,
       0, none⟩ := by
  have htr : truthy cfg.static_token = true := by
    rw [hs]
    simp [truthy, hne]
  unfold get_token
  rw [htr]
  simp only [if_true]
  by_cases hcv : c.value = some s
  · simp [hs, hcv, pyStr]
  · simp [hs, hcv, pyStr]

/-- A 2xx status never triggers `raise_for_status`. -/
theorem raisesForStatus_2xx {st : Nat} (h : st < 300) : raisesForStatus st = false := by
  unfold raisesForStatus
  simp only [Bool.and_eq_false_iff, decide_eq_false_iff_not, Nat.not_le]
  left
  omega

/-- Fetching against a 2xx response whose body carries a token stores and
returns it. -/
theorem fetchToken_2xx_some (cfg : Config) (now : Nat) (st : Nat) (s : String) (c : Cache)
    (hst : st < 300) :
    fetchToken cfg now (.http st (some s)) c =
      ⟨.ok s, ⟨some s, some (now + cfg.token_refresh), c.refresh_count + 1⟩, 1,
       some (pyStr cfg.email ++ ":" ++ pyStr cfg.api_key)⟩ := by
  unfold fetchToken
  simp [raisesForStatus_2xx hst]

/-- Fetching against a 2xx response with no `token` field mutates the cache and
then raises `TypeError` from the debug f-string slicing `None`. -/
theorem fetchToken_2xx_none (cfg : Config) (now : Nat) (st : Nat) (c : Cache)
    (hst : st < 300) :
    fetchToken cfg now (.http st none) c =
      ⟨.err .typeError, ⟨none, some (now + cfg.token_refresh), c.refresh_count + 1⟩, 1,
       some (pyStr cfg.email ++ ":" ++ pyStr cfg.api_key)⟩ := by
  unfold fetchToken
  simp [raisesForStatus_2xx hst]

/-- A truthy cached token that has not expired is returned as-is: no state
change, no transport call. -/
theorem get_token_cache_hit (cfg : Config) (now : Nat) (resp : Response) (c : Cache)
    (s : String) (e : Nat)
    (hstatic : truthy cfg.static_token = false)
    (hv : c.value = some s) (hs : s ≠ "") (he : c.expiry = some e) (hle : now ≤ e) :
    get_token cfg now resp c = ⟨.ok s, c, 0, none⟩ := by
  unfold get_token
  have htv : truthy (some s) = true := by simp [truthy, hs]
  simp [hstatic, hv, htv, he, Nat.not_lt.mpr hle, pyStr]

/-- A failing response makes the fetch issue one call and raise. -/
theorem fetchToken_failing (cfg : Config) (now : Nat) (resp : Response) (c : Cache)
    (hfail : failingResponse resp) :
    (fetchToken cfg now resp c).calls = 1 ∧
      ∃ e, (fetchToken cfg now resp c).result = .err e := by
  rcases hfail with h | ⟨st, tok, h, hr⟩
  · subst h
    exact ⟨rfl, .requestError, rfl⟩
  · subst h
    unfold fetchToken
    simp [hr]

/-! ### Claim C1 -/

/-- C1 counterexample: with the concrete `CONFIG` of `app.py`
(`max_retries = 3`) and a transport that always fails, a Dynamic-mode
`get_token()` performs exactly 1 fetch attempt, not `max_retries + 1 = 4`,
and re-raises the transport error; the claimed retry loop does not exist. -/
theorem C1_counterexample :
    (get_token (CONFIG (some "a@b.com") (some "k") none) 0 .netErr initCache).calls = 1 ∧
    (CONFIG (some "a@b.com") (some "k") none).max_retries + 1 = 4 ∧
    (get_token (CONFIG (some "a@b.com") (some "k") none) 0 .netErr initCache).calls ≠
      (CONFIG (some "a@b.com") (some "k") none).max_retries + 1 ∧
    (get_token (CONFIG (some "a@b.com") (some "k") none) 0 .netErr initCache).result =
      .err .requestError := by
  decide

/-- C1 amended: for every transport response that fails (network error or
4xx/5xx status), a Dynamic-mode `get_token()` in a state requiring a fetch
performs exactly one attempt, surfaces an error, and never consults
`max_retries` or `backoff_factor` (its output is independent of them). -/
theorem C1_single_attempt_no_retry (cfg : Config) (now : Nat) (resp : Response) (c : Cache)
    (hstatic : truthy cfg.static_token = false)
    (hneed : needsFetch c now)
    (hfail : failingResponse resp) :
    (get_token cfg now resp c).calls = 1 ∧
    (∃ e, (get_token cfg now resp c).result = .err e) ∧
    (∀ mr bf, get_token { cfg with max_retries := mr, backoff_factor := bf } now resp c =
      get_token cfg now resp c) := by
  refine ⟨?_, ?_, ?_⟩
  · rw [get_token_dynamic_fetch cfg now resp c hstatic hneed]
    exact (fetchToken_failing cfg now resp c hfail).1
  · rw [get_token_dynamic_fetch cfg now resp c hstatic hneed]
    exact (fetchToken_failing cfg now resp c hfail).2
  · intro mr bf
    rfl

/-- C1 witness at a concrete failing transport. -/
theorem C1_single_attempt_no_retry_witness :
    truthy (CONFIG (some "a@b.com") (some "k") none).static_token = false ∧
    needsFetch initCache 0 ∧
    failingResponse (Response.http 500 none) ∧
    ((get_token (CONFIG (some "a@b.com") (some "k") none) 0 (.http 500 none) initCache).calls = 1 ∧
     (∃ e, (get_token (CONFIG (some "a@b.com") (some "k") none) 0
        (.http 500 none) initCache).result = .err e) ∧
     (∀ mr bf, get_token { CONFIG (some "a@b.com") (some "k") none with
          max_retries := mr, backoff_factor := bf } 0 (.http 500 none) initCache =
        get_token (CONFIG (some "a@b.com") (some "k") none) 0 (.http 500 none) initCache)) :=
  ⟨by decide, by decide, by decide,
   C1_single_attempt_no_retry (CONFIG (some "a@b.com") (some "k") none) 0
     (.http 500 none) initCache (by decide) (by decide) (by decide)⟩

/-! ### Claim C2 -/

/-- C2: with a truthy static token configured, `get_token()` (in both
implementations) returns the configured value with zero transport calls, and
its result and call count do not depend on the stored expiry (no expiry
check). -/
theorem C2_static_mode (cfg : Config) (now : Nat) (resp : Response) (c : Cache) (s : String)
    (hs : cfg.static_token = some s) (hne : s ≠ "") :
    (get_token cfg now resp c).result = .ok s ∧
    (get_token cfg now resp c).calls = 0 ∧
    (∀ e, (get_token cfg now resp ⟨c.value, e, c.refresh_count⟩).result = .ok s ∧
      (get_token cfg now resp ⟨c.value, e, c.refresh_count⟩).calls = 0) ∧
    (get_token_copy cfg.static_token cfg.email cfg.api_key resp).result = .ok s ∧
    (get_token_copy cfg.static_token cfg.email cfg.api_key resp).calls = 0 := by
  have htr : truthy cfg.static_token = true := by
    rw [hs]
    simp [truthy, hne]
  rw [get_token_static cfg now resp c s hs hne]
  refine ⟨rfl, rfl, ?_, ?_, ?_⟩
  · intro e
    rw [get_token_static cfg now resp ⟨c.value, e, c.refresh_count⟩ s hs hne]
    exact ⟨rfl, rfl⟩
  · unfold get_token_copy
    rw [htr]
    simp [hs, pyStr]
  · unfold get_token_copy
    rw [htr]
    simp

/-- C2 witness at a concrete static configuration. -/
theorem C2_static_mode_witness :
    (CONFIG none none (some "tok")).static_token = some "tok" ∧
    "tok" ≠ "" ∧
    ((get_token (CONFIG none none (some "tok")) 0 .netErr initCache).result = .ok "tok" ∧
     (get_token (CONFIG none none (some "tok")) 0 .netErr initCache).calls = 0 ∧
     (∀ e, (get_token (CONFIG none none (some "tok")) 0 .netErr
          ⟨initCache.value, e, initCache.refresh_count⟩).result = .ok "tok" ∧
        (get_token (CONFIG none none (some "tok")) 0 .netErr
          ⟨initCache.value, e, initCache.refresh_count⟩).calls = 0) ∧
     (get_token_copy (CONFIG none none (some "tok")).static_token
        (CONFIG none none (some "tok")).email
        (CONFIG none none (some "tok")).api_key .netErr).result = .ok "tok" ∧
     (get_token_copy (CONFIG none none (some "tok")).static_token
        (CONFIG none none (some "tok")).email
        (CONFIG none none (some "tok")).api_key .netErr).calls = 0) :=
  ⟨rfl, by decide,
   C2_static_mode (CONFIG none none (some "tok")) 0 .netErr initCache "tok" rfl (by decide)⟩

/-! ### Claim C3 -/

/-- C3 counterexample: a successful fetch whose body is `{"token": ""}`
returns `""` and sets a future expiry, yet the next `get_token()` call before
that expiry issues one more transport call (the cache test is truthiness, not
presence) and returns the new transport's token instead of the fetched one. -/
theorem C3_counterexample :
    (get_token (CONFIG (some "a@b.com") (some "k") none) 0 (.http 200 (some ""))
        initCache).result = .ok "" ∧
    (get_token (CONFIG (some "a@b.com") (some "k") none) 0 (.http 200 (some ""))
        initCache).cache.expiry = some 3300 ∧
    (get_token (CONFIG (some "a@b.com") (some "k") none) 1 (.http 200 (some "T2"))
        (get_token (CONFIG (some "a@b.com") (some "k") none) 0 (.http 200 (some ""))
          initCache).cache).calls = 1 ∧
    (get_token (CONFIG (some "a@b.com") (some "k") none) 1 (.http 200 (some "T2"))
        (get_token (CONFIG (some "a@b.com") (some "k") none) 0 (.http 200 (some ""))
          initCache).cache).result = .ok "T2" := by
  decide

/-- C3 amended: in Dynamic mode, every successful fetch returning a non-empty
token sets `expires_at` strictly in the future, and any subsequent call while
`now` is before `expires_at` returns the identical token with zero additional
transport calls. -/
theorem C3_cache_hit_before_expiry (cfg : Config) (t1 t2 st : Nat) (s : String) (c : Cache)
    (resp2 : Response)
    (hstatic : truthy cfg.static_token = false)
    (hneed : needsFetch c t1)
    (hst : st < 300)
    (hs : s ≠ "")
    (hrefresh : 0 < cfg.token_refresh)
    (ht2 : t2 < t1 + cfg.token_refresh) :
    (get_token cfg t1 (.http st (some s)) c).result = .ok s ∧
    (get_token cfg t1 (.http st (some s)) c).cache.expiry = some (t1 + cfg.token_refresh) ∧
    t1 < t1 + cfg.token_refresh ∧
    (get_token cfg t2 resp2 (get_token cfg t1 (.http st (some s)) c).cache).result = .ok s ∧
    (get_token cfg t2 resp2 (get_token cfg t1 (.http st (some s)) c).cache).calls = 0 := by
  rw [get_token_dynamic_fetch cfg t1 _ c hstatic hneed,
    fetchToken_2xx_some cfg t1 st s c hst]
  refine ⟨rfl, rfl, by omega, ?_, ?_⟩
  · rw [get_token_cache_hit cfg t2 resp2 _ s (t1 + cfg.token_refresh) hstatic rfl hs rfl
      (by omega)]
  · rw [get_token_cache_hit cfg t2 resp2 _ s (t1 + cfg.token_refresh) hstatic rfl hs rfl
      (by omega)]

/-- C3 witness at the spec's own scenario (token "T1", immediate second call). -/
theorem C3_cache_hit_before_expiry_witness :
    truthy (CONFIG (some "a@b.com") (some "k") none).static_token = false ∧
    needsFetch initCache 0 ∧ (200 : Nat) < 300 ∧ "T1" ≠ "" ∧
    0 < (CONFIG (some "a@b.com") (some "k") none).token_refresh ∧
    1 < 0 + (CONFIG (some "a@b.com") (some "k") none).token_refresh ∧
    ((get_token (CONFIG (some "a@b.com") (some "k") none) 0 (.http 200 (some "T1"))
        initCache).result = .ok "T1" ∧
     (get_token (CONFIG (some "a@b.com") (some "k") none) 0 (.http 200 (some "T1"))
        initCache).cache.expiry =
       some (0 + (CONFIG (some "a@b.com") (some "k") none).token_refresh) ∧
     0 < 0 + (CONFIG (some "a@b.com") (some "k") none).token_refresh ∧
     (get_token (CONFIG (some "a@b.com") (some "k") none) 1 .netErr
        (get_token (CONFIG (some "a@b.com") (some "k") none) 0 (.http 200 (some "T1"))
          initCache).cache).result = .ok "T1" ∧
     (get_token (CONFIG (some "a@b.com") (some "k") none) 1 .netErr
        (get_token (CONFIG (some "a@b.com") (some "k") none) 0 (.http 200 (some "T1"))
          initCache).cache).calls = 0) :=
  ⟨by decide, by decide, by decide, by decide, by decide, by decide,
   C3_cache_hit_before_expiry (CONFIG (some "a@b.com") (some "k") none) 0 1 200 "T1"
     initCache .netErr (by decide) (by decide) (by decide) (by decide) (by decide) (by decide)⟩

/-! ### Claim C4 -/

/-- C4 counterexample: a 2xx response whose body is `{"token": ""}` makes
`get_token()` return the empty string on its success path, contradicting the
claim that the success path never returns an empty token; and a 2xx body with
no `token` field raises a plain `TypeError` (from the debug f-string slicing
`None`), not a dedicated token-acquisition error. -/
theorem C4_counterexample :
    (get_token (CONFIG (some "a@b.com") (some "k") none) 5 (.http 200 (some ""))
        initCache).result = .ok "" ∧
    (get_token (CONFIG (some "a@b.com") (some "k") none) 5 (.http 200 none)
        initCache).result = .err .typeError := by
  decide

/-- C4 amended: on a 2xx response with no `token` field, `get_token()` raises
an error (a `TypeError` produced while logging the new token, there being no
dedicated `TokenAcquisitionFailed` type); on a 2xx response with a `token`
field the success path returns exactly the body's token string, which may be
empty. -/
theorem C4_missing_token_raises (cfg : Config) (now st : Nat) (c : Cache)
    (hstatic : truthy cfg.static_token = false)
    (hneed : needsFetch c now)
    (hst : st < 300) :
    (get_token cfg now (.http st none) c).result = .err .typeError ∧
    (∀ s, (get_token cfg now (.http st (some s)) c).result = .ok s) := by
  constructor
  · rw [get_token_dynamic_fetch cfg now _ c hstatic hneed,
      fetchToken_2xx_none cfg now st c hst]
  · intro s
    rw [get_token_dynamic_fetch cfg now _ c hstatic hneed,
      fetchToken_2xx_some cfg now st s c hst]

/-- C4 witness at status 200 and a fresh cache. -/
theorem C4_missing_token_raises_witness :
    truthy (CONFIG (some "a@b.com") (some "k") none).static_token = false ∧
    needsFetch initCache 3 ∧ (200 : Nat) < 300 ∧
    ((get_token (CONFIG (some "a@b.com") (some "k") none) 3 (.http 200 none)
        initCache).result = .err .typeError ∧
     (∀ s, (get_token (CONFIG (some "a@b.com") (some "k") none) 3 (.http 200 (some s))
        initCache).result = .ok s)) :=
  ⟨by decide, by decide, by decide,
   C4_missing_token_raises (CONFIG (some "a@b.com") (some "k") none) 3 200 initCache
     (by decide) (by decide) (by decide)⟩

/-! ### Claim C5 -/

/-- C5 counterexample: the 401-recovery mutation clears only
`TOKEN_CACHE["value"]`; the expiry survives, and on a state produced by
Static-mode `get_token()` the operation is not a no-op. -/
theorem C5_counterexample :
    invalidate ⟨some "T1", some 100, 1⟩ = ⟨none, some 100, 1⟩ ∧
    (invalidate ⟨some "T1", some 100, 1⟩).expiry ≠ none ∧
    (get_token (CONFIG none none (some "tok")) 0 .netErr initCache).cache =
      ⟨some "tok", some 3300, 0⟩ ∧
    invalidate ⟨some "tok", some 3300, 0⟩ ≠ ⟨some "tok", some 3300, 0⟩ := by
  decide

/-- C5 amended: `invalidate` clears `current_token` only, leaving `expires_at`
and the refresh counter, in every mode; after it, a Dynamic-mode `get_token()`
performs a fresh fetch (one transport call) whatever the remaining expiry,
while a Static-mode `get_token()` re-stores the configured token with no
transport call. -/
theorem C5_invalidate_forces_fetch (cfg : Config) (now : Nat) (resp : Response) (c : Cache) :
    invalidate c = ⟨none, c.expiry, c.refresh_count⟩ ∧
    (truthy cfg.static_token = false →
      (get_token cfg now resp (invalidate c)).calls = 1) ∧
    (∀ s, cfg.static_token = some s → s ≠ "" →
      (get_token cfg now resp (invalidate c)).calls = 0 ∧
      (get_token cfg now resp (invalidate c)).result = .ok s) := by
  refine ⟨rfl, ?_, ?_⟩
  · intro hstatic
    rw [get_token_dynamic_fetch cfg now resp (invalidate c) hstatic (Or.inl rfl)]
    cases resp with
    | netErr => rfl
    | http st tok =>
      unfold fetchToken
      by_cases hr : raisesForStatus st = true
      · simp [hr]
      · simp only [Bool.not_eq_true] at hr
        cases tok <;> simp [hr]
  · intro s hs hne
    rw [get_token_static cfg now resp (invalidate c) s hs hne]
    exact ⟨rfl, rfl⟩

/-- C5 witness: invalidating a live dynamic token and a static token. -/
theorem C5_invalidate_forces_fetch_witness :
    (invalidate ⟨some "T1", some 9999, 2⟩ =
      ⟨none, (⟨some "T1", some 9999, 2⟩ : Cache).expiry,
        (⟨some "T1", some 9999, 2⟩ : Cache).refresh_count⟩ ∧
     (truthy (CONFIG (some "a@b.com") (some "k") none).static_token = false →
       (get_token (CONFIG (some "a@b.com") (some "k") none) 0 (.http 200 (some "T2"))
         (invalidate ⟨some "T1", some 9999, 2⟩)).calls = 1) ∧
     (∀ s, (CONFIG (some "a@b.com") (some "k") none).static_token = some s → s ≠ "" →
       (get_token (CONFIG (some "a@b.com") (some "k") none) 0 (.http 200 (some "T2"))
         (invalidate ⟨some "T1", some 9999, 2⟩)).calls = 0 ∧
       (get_token (CONFIG (some "a@b.com") (some "k") none) 0 (.http 200 (some "T2"))
         (invalidate ⟨some "T1", some 9999, 2⟩)).result = .ok s)) :=
  C5_invalidate_forces_fetch (CONFIG (some "a@b.com") (some "k") none) 0
    (.http 200 (some "T2")) ⟨some "T1", some 9999, 2⟩

/-! ### Claim C6 -/

/-- C6 counterexample: at startup `TOKEN_CACHE["value"]` is `None`; the first
Static-mode `get_token()` call overwrites it with the configured token, so
`current_token` is mutated after startup; and the 401 handler clears it even
in Static mode. -/
theorem C6_counterexample :
    initCache.value = none ∧
    (get_token (CONFIG none none (some "tok")) 0 .netErr initCache).cache.value =
      some "tok" ∧
    (get_token (CONFIG none none (some "tok")) 0 .netErr initCache).cache.value ≠
      initCache.value ∧
    (invalidate (get_token (CONFIG none none (some "tok")) 0 .netErr
      initCache).cache).value = none := by
  decide

/-- C6 amended: in Static mode `expires_at` is never consulted (the result and
call count of `get_token()` do not depend on the stored expiry), but
`current_token` is not immutable: `get_token()` overwrites it (together with
`expires_at`) whenever the cached value differs from the configured token, and
the 401 handler clears it unconditionally. -/
theorem C6_static_state (cfg : Config) (now : Nat) (resp : Response) (c : Cache) (s : String)
    (hs : cfg.static_token = some s) (hne : s ≠ "") :
    (∀ e1 e2,
      (get_token cfg now resp ⟨c.value, e1, c.refresh_count⟩).result =
        (get_token cfg now resp ⟨c.value, e2, c.refresh_count⟩).result ∧
      (get_token cfg now resp ⟨c.value, e1, c.refresh_count⟩).calls =
        (get_token cfg now resp ⟨c.value, e2, c.refresh_count⟩).calls) ∧
    (get_token cfg now resp c).cache.value = some s ∧
    (c.value = some s → (get_token cfg now resp c).cache = c) ∧
    (c.value ≠ some s →
      (get_token cfg now resp c).cache =
        ⟨some s, some (now + cfg.token_refresh), c.refresh_count⟩) ∧
    (invalidate c).value = none := by
  refine ⟨?_, ?_, ?_, ?_, rfl⟩
  · intro e1 e2
    rw [get_token_static cfg now resp ⟨c.value, e1, c.refresh_count⟩ s hs hne,
      get_token_static cfg now resp ⟨c.value, e2, c.refresh_count⟩ s hs hne]
    exact ⟨rfl, rfl⟩
  · rw [get_token_static cfg now resp c s hs hne]
    by_cases hcv : c.value = some s
    · simp [hcv]
    · simp [hcv]
  · intro hcv
    rw [get_token_static cfg now resp c s hs hne]
    simp [hcv]
  · intro hcv
    rw [get_token_static cfg now resp c s hs hne]
    simp [hcv]

/-- C6 witness at a concrete static configuration and populated cache. -/
theorem C6_static_state_witness :
    (CONFIG none none (some "tok")).static_token = some "tok" ∧ "tok" ≠ "" ∧
    ((∀ e1 e2,
       (get_token (CONFIG none none (some "tok")) 7 .netErr
           ⟨some "old", e1, 4⟩).result =
         (get_token (CONFIG none none (some "tok")) 7 .netErr
           ⟨some "old", e2, 4⟩).result ∧
       (get_token (CONFIG none none (some "tok")) 7 .netErr
           ⟨some "old", e1, 4⟩).calls =
         (get_token (CONFIG none none (some "tok")) 7 .netErr
           ⟨some "old", e2, 4⟩).calls) ∧
     (get_token (CONFIG none none (some "tok")) 7 .netErr
       ⟨some "old", some 2, 4⟩).cache.value = some "tok" ∧
     ((⟨some "old", some 2, 4⟩ : Cache).value = some "tok" →
       (get_token (CONFIG none none (some "tok")) 7 .netErr
         ⟨some "old", some 2, 4⟩).cache = ⟨some "old", some 2, 4⟩) ∧
     ((⟨some "old", some 2, 4⟩ : Cache).value ≠ some "tok" →
       (get_token (CONFIG none none (some "tok")) 7 .netErr
         ⟨some "old", some 2, 4⟩).cache =
           ⟨some "tok", some (7 + (CONFIG none none (some "tok")).token_refresh), 4⟩) ∧
     (invalidate ⟨some "old", some 2, 4⟩).value = none) :=
  ⟨rfl, by decide,
   C6_static_state (CONFIG none none (some "tok")) 7 .netErr ⟨some "old", some 2, 4⟩ "tok"
     rfl (by decide)⟩

/-! ### Claim C7 -/

/-- C7 counterexample: with no static token, no email and no API key
configured, `get_token()` does not fail fast: it issues one fetch whose
Basic-auth user string is the literal `"None:None"` and surfaces the
endpoint's HTTP error, not a configuration error. -/
theorem C7_counterexample :
    (get_token (CONFIG none none none) 0 (.http 401 none) initCache).calls = 1 ∧
    (get_token (CONFIG none none none) 0 (.http 401 none) initCache).creds =
      some "None:None" ∧
    (get_token (CONFIG none none none) 0 (.http 401 none) initCache).result =
      .err (.httpStatusError 401) := by
  decide

/-- C7 amended: with all credentials missing, each `get_token` implementation
performs exactly one fetch using Basic-auth credentials built from the string
`"None:None"` and surfaces the transport's error; no credential check or
configuration error precedes the fetch. -/
theorem C7_no_failfast (now : Nat) (resp : Response) (c : Cache)
    (hneed : needsFetch c now) (hfail : failingResponse resp) :
    (get_token (CONFIG none none none) now resp c).calls = 1 ∧
    (get_token (CONFIG none none none) now resp c).creds = some "None:None" ∧
    (∃ e, (get_token (CONFIG none none none) now resp c).result = .err e) ∧
    (get_token_copy none none none resp).calls = 1 ∧
    (get_token_copy none none none resp).creds = some "None:None" := by
  have hstatic : truthy (CONFIG none none none).static_token = false := rfl
  rw [get_token_dynamic_fetch _ now resp c hstatic hneed]
  obtain ⟨hcalls, herr⟩ := fetchToken_failing (CONFIG none none none) now resp c hfail
  refine ⟨hcalls, ?_, herr, ?_, ?_⟩
  · cases resp with
    | netErr => rfl
    | http st tok =>
      unfold fetchToken
      by_cases hr : raisesForStatus st = true
      · simp [hr, pyStr, CONFIG]
      · simp only [Bool.not_eq_true] at hr
        cases tok <;> simp [hr, pyStr, CONFIG]
  · rcases hfail with h | ⟨st, tok, h, hr⟩ <;> subst h
    · rfl
    · have h200 : st ≠ 200 := by
        intro h
        subst h
        exact absurd hr (by decide)
      unfold get_token_copy
      simp [truthy, h200]
  · rcases hfail with h | ⟨st, tok, h, hr⟩ <;> subst h
    · rfl
    · have h200 : st ≠ 200 := by
        intro h
        subst h
        exact absurd hr (by decide)
      unfold get_token_copy
      simp [truthy, h200, pyStr]

/-- C7 witness at a 500 response. -/
theorem C7_no_failfast_witness :
    needsFetch initCache 0 ∧ failingResponse (Response.http 500 none) ∧
    ((get_token (CONFIG none none none) 0 (.http 500 none) initCache).calls = 1 ∧
     (get_token (CONFIG none none none) 0 (.http 500 none) initCache).creds =
       some "None:None" ∧
     (∃ e, (get_token (CONFIG none none none) 0 (.http 500 none) initCache).result =
       .err e) ∧
     (get_token_copy none none none (.http 500 none)).calls = 1 ∧
     (get_token_copy none none none (.http 500 none)).creds = some "None:None") :=
  ⟨by decide, by decide,
   C7_no_failfast 0 (.http 500 none) initCache (by decide) (by decide)⟩

/-! ### Claim C8 -/

/-- C8 counterexample: with `current_token` set to the empty string and an
expiry far in the future, `get_token()` at `now = 5` still performs a fetch
(one transport call) and returns the transport's token, because the cache test
is Python truthiness rather than presence. -/
theorem C8_counterexample :
    (get_token (CONFIG (some "a@b.com") (some "k") none) 5 (.http 200 (some "T9"))
        ⟨some "", some 1000, 1⟩).calls = 1 ∧
    (get_token (CONFIG (some "a@b.com") (some "k") none) 5 (.http 200 (some "T9"))
        ⟨some "", some 1000, 1⟩).result = .ok "T9" := by
  decide

/-- C8 amended: in Dynamic mode a non-empty `current_token` is returned
without a new fetch while `now` has not passed `expires_at`, and every
`get_token()` call made after `expires_at` has passed performs exactly one new
fetch. -/
theorem C8_expiry_boundary (cfg : Config) (now e : Nat) (resp : Response) (c : Cache)
    (s : String)
    (hstatic : truthy cfg.static_token = false)
    (hv : c.value = some s) (hs : s ≠ "") (he : c.expiry = some e) :
    (now ≤ e →
      (get_token cfg now resp c).result = .ok s ∧ (get_token cfg now resp c).calls = 0) ∧
    (e < now → (get_token cfg now resp c).calls = 1) := by
  constructor
  · intro hle
    rw [get_token_cache_hit cfg now resp c s e hstatic hv hs he hle]
    exact ⟨rfl, rfl⟩
  · intro hlt
    rw [get_token_dynamic_fetch cfg now resp c hstatic (Or.inr ⟨e, he, hlt⟩)]
    cases resp with
    | netErr => rfl
    | http st tok =>
      unfold fetchToken
      by_cases hr : raisesForStatus st = true
      · simp [hr]
      · simp only [Bool.not_eq_true] at hr
        cases tok <;> simp [hr]

/-- C8 witness: a live token at its expiry instant, then one instant after. -/
theorem C8_expiry_boundary_witness :
    truthy (CONFIG (some "a@b.com") (some "k") none).static_token = false ∧
    (⟨some "T1", some 50, 1⟩ : Cache).value = some "T1" ∧ "T1" ≠ "" ∧
    (⟨some "T1", some 50, 1⟩ : Cache).expiry = some 50 ∧
    (50 ≤ 50 ∧
     ((get_token (CONFIG (some "a@b.com") (some "k") none) 50 .netErr
         ⟨some "T1", some 50, 1⟩).result = .ok "T1" ∧
      (get_token (CONFIG (some "a@b.com") (some "k") none) 50 .netErr
         ⟨some "T1", some 50, 1⟩).calls = 0)) ∧
    (50 < 51 ∧
     (get_token (CONFIG (some "a@b.com") (some "k") none) 51 .netErr
        ⟨some "T1", some 50, 1⟩).calls = 1) :=
  ⟨by decide, rfl, by decide, rfl,
   ⟨by decide,
    (C8_expiry_boundary (CONFIG (some "a@b.com") (some "k") none) 50 50 .netErr
      ⟨some "T1", some 50, 1⟩ "T1" (by decide) rfl (by decide) rfl).1 (by decide)⟩,
   ⟨by decide,
    (C8_expiry_boundary (CONFIG (some "a@b.com") (some "k") none) 51 50 .netErr
      ⟨some "T1", some 50, 1⟩ "T1" (by decide) rfl (by decide) rfl).2 (by decide)⟩⟩

/-! ### Claim C9 -/

/-- C9: on a 2xx response with no `token` field, `get_token()` raises only
after mutating the shared cache: the value is left `None`, the expiry is set
to a strictly future instant, and the refresh counter is incremented - the
error path is not atomic and counts a refresh that produced no usable
token. -/
theorem C9_error_path_not_atomic (cfg : Config) (now st : Nat) (c : Cache)
    (hstatic : truthy cfg.static_token = false)
    (hneed : needsFetch c now)
    (hst : st < 300)
    (hrefresh : 0 < cfg.token_refresh) :
    (get_token cfg now (.http st none) c).result = .err .typeError ∧
    (get_token cfg now (.http st none) c).cache.value = none ∧
    (get_token cfg now (.http st none) c).cache.expiry =
      some (now + cfg.token_refresh) ∧
    now < now + cfg.token_refresh ∧
    (get_token cfg now (.http st none) c).cache.refresh_count =
      c.refresh_count + 1 := by
  rw [get_token_dynamic_fetch cfg now _ c hstatic hneed,
    fetchToken_2xx_none cfg now st c hst]
  exact ⟨rfl, rfl, rfl, by omega, rfl⟩

/-- C9 witness at the concrete app.py CONFIG and a fresh cache. -/
theorem C9_error_path_not_atomic_witness :
    truthy (CONFIG (some "a@b.com") (some "k") none).static_token = false ∧
    needsFetch initCache 10 ∧ (204 : Nat) < 300 ∧
    0 < (CONFIG (some "a@b.com") (some "k") none).token_refresh ∧
    ((get_token (CONFIG (some "a@b.com") (some "k") none) 10 (.http 204 none)
        initCache).result = .err .typeError ∧
     (get_token (CONFIG (some "a@b.com") (some "k") none) 10 (.http 204 none)
        initCache).cache.value = none ∧
     (get_token (CONFIG (some "a@b.com") (some "k") none) 10 (.http 204 none)
        initCache).cache.expiry =
       some (10 + (CONFIG (some "a@b.com") (some "k") none).token_refresh) ∧
     10 < 10 + (CONFIG (some "a@b.com") (some "k") none).token_refresh ∧
     (get_token (CONFIG (some "a@b.com") (some "k") none) 10 (.http 204 none)
        initCache).cache.refresh_count = initCache.refresh_count + 1) :=
  ⟨by decide, by decide, by decide, by decide,
   C9_error_path_not_atomic (CONFIG (some "a@b.com") (some "k") none) 10 204 initCache
     (by decide) (by decide) (by decide) (by decide)⟩

/-! ### Claim C10 -/

/-- C10: the two `get_token` implementations agree on the common input
shapes: with a truthy static token both return the configured value, and in
Dynamic mode a first call against a 200 response whose body carries a `token`
field returns that body's token in both. -/
theorem C10_implementations_agree (email api_key : Option String) (s tok : String)
    (now : Nat) (resp : Response) (hne : s ≠ "") :
    ((get_token (CONFIG email api_key (some s)) now resp initCache).result = .ok s ∧
     (get_token_copy (some s) email api_key resp).result = .ok s) ∧
    ((get_token (CONFIG email api_key none) now (.http 200 (some tok))
        initCache).result = .ok tok ∧
     (get_token_copy none email api_key (.http 200 (some tok))).result = .ok tok) := by
  have htr : truthy (some s) = true := by simp [truthy, hne]
  refine ⟨⟨?_, ?_⟩, ?_, ?_⟩
  · rw [get_token_static (CONFIG email api_key (some s)) now resp initCache s rfl hne]
  · unfold get_token_copy
    rw [htr]
    simp [pyStr]
  · rw [get_token_dynamic_fetch (CONFIG email api_key none) now _ initCache rfl
      (Or.inl rfl),
      fetchToken_2xx_some (CONFIG email api_key none) now 200 tok initCache (by omega)]
  · rfl

/-- C10 witness at the spec's scenario: email "a@b.com", api key "k",
static token "S", body token "T1". -/
theorem C10_implementations_agree_witness :
    "S" ≠ "" ∧
    (((get_token (CONFIG (some "a@b.com") (some "k") (some "S")) 0 .netErr
         initCache).result = .ok "S" ∧
      (get_token_copy (some "S") (some "a@b.com") (some "k") .netErr).result = .ok "S") ∧
     ((get_token (CONFIG (some "a@b.com") (some "k") none) 0 (.http 200 (some "T1"))
         initCache).result = .ok "T1" ∧
      (get_token_copy none (some "a@b.com") (some "k")
         (.http 200 (some "T1"))).result = .ok "T1")) :=
  ⟨by decide,
   C10_implementations_agree (some "a@b.com") (some "k") "S" "T1" 0 .netErr (by decide)⟩

end OpenAPIProxy
